import Mathlib

/-!
Verification of the Indra-Chatbot session engine (src/main.py, final draft,
lines 1065-1457 of the repository file).

The Python program is a Telegram bot: a per-user dict `context.user_data`
holds the session (state string, identity fields, chat history, pending
report), `handle_message` is the single dispatcher over the state string,
`query_openrouter` wraps the OpenRouter classifier call with retries, and
`generate_report_and_send_email` is the report dispatcher (staff email,
patient email, simulated EMR push).

This file embeds those functions shallowly: external I/O outcomes (HTTP
attempt results, SMTP behaviour) are passed in as explicit values, and the
functions are translated control-flow faithfully from the source.
-/

/-- One chat turn, as stored in `context.user_data['chat_history']`:
a dict `{"role": ..., "text": ...}`. -/
structure Turn where
  role : String
  text : String
deriving DecidableEq, Repr

/-- The pending report dict stored under `temp_report`
(src/main.py lines 1404-1407). -/
structure Report where
  category : String
  summary : String
deriving DecidableEq, Repr

/-- The per-user session dict `context.user_data`. Keys that may be absent
(`full_name`, `dob`, `email`, `conversation_state`, `temp_report`) are
`Option`; `chat_history` is modelled as a total list, `[]` standing for an
absent key (every state that reads it also wrote it first). -/
structure UserData where
  conversation_state : Option String
  full_name : Option String
  dob : Option String
  email : Option String
  chat_history : List Turn
  temp_report : Option Report
deriving DecidableEq, Repr

/-- `STATE_AWAITING_INFO` (src/main.py line 1105). -/
def STATE_AWAITING_INFO : String := "awaiting_info"

/-- `STATE_AWAITING_CATEGORY` (line 1106). -/
def STATE_AWAITING_CATEGORY : String := "awaiting_category"

/-- `STATE_CHAT_ACTIVE` (line 1107). -/
def STATE_CHAT_ACTIVE : String := "chat_active"

/-- `STATE_AWAITING_CONFIRMATION` (line 1108). -/
def STATE_AWAITING_CONFIRMATION : String := "awaiting_confirmation"

/-- `WORKFLOWS = ["Admin", "Prescription/Medication", "Clinical/Medical"]`
(line 1109). -/
def WORKFLOWS : List String := ["Admin", "Prescription/Medication", "Clinical/Medical"]

/-- Python truthiness of an optional string (`os.getenv` result):
`None` and `""` are falsy, any other string truthy. -/
def pyTruthy : Option String → Bool
  | none => false
  | some s => s != ""

/-- Python `s.isdigit()` for ASCII content: non-empty and all digits. -/
def pyIsDigit (s : String) : Bool :=
  s.length > 0 && s.toList.all Char.isDigit

/-- Python `s.lower()`: lower-case every character. -/
def pyLower (s : String) : String :=
  ⟨s.data.map Char.toLower⟩

/-- The characters Python `str.strip()` removes (ASCII whitespace). -/
def pyIsSpace (c : Char) : Bool :=
  c == ' ' || c == '\t' || c == '\n' || c == '\r' || c == '\x0B' || c == '\x0C'

/-- Python `s.strip()`: drop whitespace from both ends. -/
def pyStrip (s : String) : String :=
  ⟨((s.data.dropWhile pyIsSpace).reverse.dropWhile pyIsSpace).reverse⟩

/-- Python `c in s` for a single character. -/
def pyContains (s : String) (c : Char) : Bool :=
  s.data.contains c

/-- Split a character list at every comma (the full `str.split(',')`). -/
def splitCommaChars : List Char → List (List Char)
  | [] => [[]]
  | c :: cs =>
    if c == ',' then [] :: splitCommaChars cs
    else
      match splitCommaChars cs with
      | h :: t => (c :: h) :: t
      | [] => [[c]]

/-- Python `user_message.split(',', 2)`: split on at most the first two
commas, keeping the remainder (with its commas) as the third part. -/
def pySplitComma2 (s : String) : List String :=
  match (splitCommaChars s.data).map (fun l => (⟨l⟩ : String)) with
  | a :: b :: c :: rest => [a, b, String.intercalate "," (c :: rest)]
  | parts => parts

-- ================= Classifier adapter: query_openrouter =================

/-- The 4-tuple returned by `query_openrouter`
(`response_text, category, summary_text, action_type`). -/
structure Decision where
  response : String
  category : String
  summary : String
  action : String
deriving DecidableEq, Repr

/-- What one HTTP attempt inside `query_openrouter`'s retry loop yields.
`ok` is status 200 with the body's parse result; `httpStatus c` is any
non-200 status `c`; `requestError` is `requests.exceptions.RequestException`
(timeouts included); `otherError` is the blanket `except Exception` arm. -/
inductive AttemptOutcome where
  | ok (p : Option (Option String × Option String × Option String × Option String))
  | httpStatus (code : Nat)
  | requestError
  | otherError
deriving DecidableEq, Repr

/-- Success-path packaging (src/main.py lines 1242-1249): `.get` defaults
for each key, coercion of an out-of-set category to `"Unknown"`, and
`.upper()` on the action. The `ok` payload is
`(category?, response?, summary?, action?)` as `parsed_json.get` found them;
`none` for the whole payload means `json.JSONDecodeError`. -/
def successDecision (c r s a : Option String) : Decision :=
  let category := c.getD "Unknown"
  let category := if WORKFLOWS.contains category then category else "Unknown"
  { response := r.getD "I am unable to formulate a response right now.",
    category := category,
    summary := s.getD "No summary generated by AI.",
    action := (a.getD "CONTINUE").toUpper }

/-- `response.status_code in (429, 500, 502, 503, 504)` (line 1259). -/
def retryableStatus (c : Nat) : Bool :=
  c == 429 || c == 500 || c == 502 || c == 503 || c == 504

/-- The retry loop of `query_openrouter` (lines 1235-1285), over the list of
outcomes the successive attempts would produce. The list has one entry per
remaining attempt, so `rest.isEmpty` is exactly Python's
`attempt == MAX_RETRIES - 1`; the `[]` result is the post-loop
`return "Sorry, a final critical error occurred." ...` (line 1285). -/
def queryLoop : List AttemptOutcome → Decision
  | [] =>
    { response := "Sorry, a final critical error occurred.", category := "Unknown",
      summary := "Final Fallback.", action := "CONTINUE" }
  | o :: rest =>
    match o with
    | .ok none =>
      { response := "I apologize, I'm having trouble processing your query.",
        category := "Unknown", summary := "JSON parsing failed.", action := "CONTINUE" }
    | .ok (some (c, r, s, a)) => successDecision c r s a
    | .httpStatus code =>
      if code == 402 then
        { response := "CRITICAL ERROR: The AI service reports insufficient credits.",
          category := "Unknown", summary := "CRITICAL BILLING FAILURE.", action := "CONTINUE" }
      else if code == 401 || code == 403 then
        { response := "ERROR: Authentication failed. Please check the OPENROUTER_API_KEY.",
          category := "Unknown", summary := "Auth Failure.", action := "CONTINUE" }
      else if retryableStatus code then
        if rest.isEmpty then
          { response := "Sorry, the AI service is currently unavailable or busy. Please try again.",
            category := "Unknown", summary := "Service Unavailable.", action := "CONTINUE" }
        else queryLoop rest
      else
        { response := "Sorry, the AI service is currently unavailable or busy. Please try again.",
          category := "Unknown", summary := "API Error.", action := "CONTINUE" }
    | .requestError =>
      if rest.isEmpty then
        { response := "I am experiencing connectivity issues right now. Please try again later.",
          category := "Unknown", summary := "Network Timeout.", action := "CONTINUE" }
      else queryLoop rest
    | .otherError =>
      { response := "Sorry, there was a problem processing your request.",
        category := "Unknown", summary := "Unhandled Code Error.", action := "CONTINUE" }

/-- `query_openrouter` with `MAX_RETRIES = 3` (line 1198): the three
attempt slots of the `for attempt in range(MAX_RETRIES)` loop. -/
def query_openrouter (o1 o2 o3 : AttemptOutcome) : Decision :=
  queryLoop [o1, o2, o3]

/-- An attempt outcome that is a transport failure of the call: an HTTP
error status, a raised request exception (timeout included), or the blanket
exception arm — anything but a 200-status response body. -/
def isTransportFailure : AttemptOutcome → Bool
  | .ok _ => false
  | .httpStatus _ => true
  | .requestError => true
  | .otherError => true

-- ============== Report dispatcher: generate_report_and_send_email ==============

/-- The SMTP environment `generate_report_and_send_email` runs against:
the three config variables it checks with `all([...])` (line 1146) and
whether each step inside the `with smtplib.SMTP(...)` block would raise
(`starttls`/`login`, the staff `send_message`, the patient `send_message`). -/
structure SmtpEnv where
  smtp_username : Option String
  smtp_password : Option String
  smtp_server : Option String
  loginOk : Bool
  staffSendOk : Bool
  patientSendOk : Bool
deriving DecidableEq, Repr

/-- Observable fate of one email sink in a single dispatcher run. -/
inductive SinkStatus where
  | sent
  | failed
  | skippedConfig
  | notAttempted
deriving DecidableEq, Repr

/-- Per-sink outcome of one `generate_report_and_send_email` run:
the staff report email and the patient confirmation email. -/
structure DispatchOutcome where
  staff : SinkStatus
  patient : SinkStatus
deriving DecidableEq, Repr

/-- `generate_report_and_send_email` (src/main.py lines 1114-1190), reduced
to its observable sink outcomes. The report text, target-address selection
and the EMR-push `print` have no effect on session state or replies and are
not modelled. Control flow is the source's: incomplete SMTP config returns
early before any send (lines 1146-1148); the sends run sequentially inside
one `try`, so an exception at login skips both sends and an exception at the
staff send skips the patient send; the patient send happens only if the
patient email is truthy (line 1167); the `except Exception` at line 1189
catches everything, so the function always returns normally. -/
def generate_report_and_send_email (env : SmtpEnv) (patient_email : Option String) :
    DispatchOutcome :=
  if !(pyTruthy env.smtp_username && pyTruthy env.smtp_password && pyTruthy env.smtp_server) then
    { staff := .skippedConfig, patient := .skippedConfig }
  else if !env.loginOk then
    { staff := .notAttempted, patient := .notAttempted }
  else if !env.staffSendOk then
    { staff := .failed, patient := .notAttempted }
  else if pyTruthy patient_email then
    if env.patientSendOk then { staff := .sent, patient := .sent }
    else { staff := .sent, patient := .failed }
  else
    { staff := .sent, patient := .notAttempted }

-- ===================== Orchestrator: start / handle_message =====================

/-- The welcome prompt sent by `start` (line 1294). -/
def welcomeText : String :=
  "👋 Welcome to Indra Clinic!\n\nI’m Indie, your assistant.\n\nPlease enter your **full name, date of birth (DD/MM/YYYY), and email**, separated by commas, to begin (e.g., *Jane Doe, 01/01/1980, jane@example.com*):"

/-- The `await start(...)` handler (lines 1290-1296): `user_data.clear()`,
then state := awaiting_info and an empty history, plus the welcome reply. -/
def start_handler : UserData × List String :=
  ({ conversation_state := some STATE_AWAITING_INFO, full_name := none, dob := none,
     email := none, chat_history := [], temp_report := none }, [welcomeText])

/-- Reply on accepted identity details (lines 1324-1331). -/
def identityAcceptedText (name : String) : String :=
  "Thank you, " ++ name ++ ". Your information has been securely noted.\n\nTo help me direct your query, please tell me what your request is about:\n\n1. **Administrative** (appointments, travel letters)\n2. **Prescription/Medication** (repeats, dosing)\n3. **Clinical/Medical** (side effects, condition updates)\n\nPlease reply with the number or the category name."

/-- Re-prompt on unparseable identity details (lines 1334-1336). -/
def identityErrorText : String :=
  "I couldn't parse your details. Please ensure you enter them in the exact format: **Full Name, DD/MM/YYYY, Email** (separated by commas)."

/-- Acknowledgement of a matched category (lines 1358-1360). -/
def categoryAckText (category : String) : String :=
  "Great, I've noted this as a **" ++ category ++ "** query. Please describe your request in detail now."

/-- Re-prompt on an unrecognized category (lines 1362-1364). -/
def categoryRepromptText : String :=
  "I didn't recognize that category. Please choose one of the options by replying with the number or name (e.g., '2' or 'Prescription')."

/-- Success message after a confirmed finalize (lines 1376-1378). -/
def confirmSuccessText : String :=
  "Thank you for confirming. Your request has been securely logged and dispatched. You'll also receive an email confirmation shortly. The chat has now been reset for your privacy."

/-- Reply on a rejected summary (lines 1383-1385). -/
def rejectionText : String :=
  "No problem. Please provide the correction or add more details now."

/-- Re-prompt on an unrecognized confirmation reply (lines 1387-1389). -/
def confirmRepromptText : String :=
  "I didn't recognize that. Please reply with 'Yes' to confirm the summary, or 'No' to add more details."

/-- The staff-summary message shown when the AI requests a report
(lines 1409-1415). -/
def reportSummaryText (category summary : String) : String :=
  "\n---\n**Report Summary for Staff**\n---\n**Category:** " ++ category ++ "\n**Summary:** " ++ summary ++ "\n\nPlease review this summary. If it is accurate, reply **'Yes'** to send the report to our team. If anything is missing or incorrect, reply **'No'** to continue adding details."

/-- Python's substring containment `p in l` on character lists: `p` occurs
contiguously in `l` (the empty pattern always occurs). -/
def substrIn (p : List Char) : List Char → Bool
  | [] => p.isEmpty
  | b :: bs => p.isPrefixOf (b :: bs) || substrIn p bs

/-- `category_map` (lines 1340-1344), in insertion order. -/
def category_map : List (String × String) :=
  [("1", "Administrative"), ("admin", "Administrative"), ("administrative", "Administrative"),
   ("2", "Prescription/Medication"), ("prescription", "Prescription/Medication"),
   ("medication", "Prescription/Medication"),
   ("3", "Clinical/Medical"), ("clinical", "Clinical/Medical"), ("medical", "Clinical/Medical")]

/-- The category matching of the awaiting_category branch (lines 1346-1353):
exact dict lookup first; otherwise the `for keyword, category in
category_map.items()` loop, which takes the first entry whose keyword is
non-numeric (`not keyword.isdigit()`) and a substring of the cleaned input,
breaking on the first hit. -/
def matchCategory (cleaned : String) : Option String :=
  match category_map.lookup cleaned with
  | some c => some c
  | none =>
    (category_map.find? (fun p => !(pyIsDigit p.1) && substrIn p.1.toList cleaned.toList)).map
      (fun p => p.2)

/-- `['yes', 'y', '1', 'ok', 'confirm', 'correct']` (line 1369). -/
def yesWords : List String := ["yes", "y", "1", "ok", "confirm", "correct"]

/-- `['no', 'n', '0', 'edit', 'amend', 'incorrect']` (line 1381). -/
def noWords : List String := ["no", "n", "0", "edit", "amend", "incorrect"]

/-- `handle_message` (src/main.py lines 1298-1417). Inputs beyond the
session and message: `env` is the SMTP environment the dispatcher would run
against, and `ai` the `Decision` that `query_openrouter` would return for
the chat_active call (the call itself is external I/O). The result is
`none` exactly when the handler raises — the only uncaught raise is
`report_data['category']` on a `None` `temp_report` in the yes-branch
(line 1373); otherwise it returns the new session, the replies in order,
and the dispatch outcome when the dispatcher ran (`none` when it did not). -/
def handle_message (env : SmtpEnv) (ud : UserData) (user_message : String) (ai : Decision) :
    Option (UserData × List String × Option DispatchOutcome) :=
  let current_state := ud.conversation_state
  if current_state == some STATE_AWAITING_INFO then
    match (pySplitComma2 user_message).map pyStrip with
    | [name, dob, email] =>
      if !(pyContains email '@') || name.length < 3 || dob.length < 8 then
        some (ud, [identityErrorText], none)
      else
        some ({ ud with
                  full_name := some name, dob := some dob, email := some email,
                  conversation_state := some STATE_AWAITING_CATEGORY,
                  chat_history := [{ role := "patient", text := user_message }] },
              [identityAcceptedText name], none)
    | _ => some (ud, [identityErrorText], none)
  else if current_state == some STATE_AWAITING_CATEGORY then
    let cleaned := pyStrip (pyLower user_message)
    match matchCategory cleaned with
    | some matched =>
      some ({ ud with
                chat_history := ud.chat_history ++
                  [{ role := "patient", text := "My query is about a " ++ matched ++ " issue." }],
                conversation_state := some STATE_CHAT_ACTIVE },
            [categoryAckText matched], none)
    | none => some (ud, [categoryRepromptText], none)
  else if current_state == some STATE_AWAITING_CONFIRMATION then
    let confirmation := pyStrip (pyLower user_message)
    if yesWords.contains confirmation then
      match ud.temp_report with
      | none => none
      | some _ =>
        let dispatch := generate_report_and_send_email env ud.email
        some (start_handler.1, confirmSuccessText :: start_handler.2, some dispatch)
    else if noWords.contains confirmation then
      some ({ ud with conversation_state := some STATE_CHAT_ACTIVE }, [rejectionText], none)
    else
      some (ud, [confirmRepromptText], none)
  else if current_state == some STATE_CHAT_ACTIVE then
    let hist := ud.chat_history ++ [{ role := "patient", text := user_message }]
    let hist := hist ++ [{ role := "indie", text := ai.response }]
    if ai.action == "REPORT" && WORKFLOWS.contains ai.category then
      some ({ ud with
                chat_history := hist,
                temp_report := some { category := ai.category, summary := ai.summary },
                conversation_state := some STATE_AWAITING_CONFIRMATION },
            [ai.response, reportSummaryText ai.category ai.summary], none)
    else
      some ({ ud with chat_history := hist }, [ai.response], none)
  else
    some (start_handler.1, start_handler.2, none)

/-- Run a sequence of incoming messages through `handle_message`, pairing
each with the classifier decision its chat_active call (if any) would
return; stops with `none` if a handler raises. -/
def runTrace (env : SmtpEnv) : UserData → List (String × Decision) → Option UserData
  | ud, [] => some ud
  | ud, (msg, d) :: rest =>
    match handle_message env ud msg d with
    | some (ud2, _, _) => runTrace env ud2 rest
    | none => none

-- ===================== Shared concrete values for witnesses =====================

/-- A fully working SMTP environment for concrete runs. -/
def envOK : SmtpEnv :=
  { smtp_username := some "user", smtp_password := some "pass",
    smtp_server := some "smtp.example.com", loginOk := true,
    staffSendOk := true, patientSendOk := true }

/-- A neutral classifier decision (CONTINUE / Unknown) for steps that do not
depend on the classifier. -/
def contDecision : Decision :=
  { response := "Could you give me more detail?", category := "Unknown",
    summary := "n/a", action := "CONTINUE" }

/-- The reject condition of the awaiting_info branch (lines 1306-1315):
true exactly when the handler raises its internal `ValueError` and
re-prompts — not three comma-separated parts, or a part failing the basic
validation (`'@' not in email or len(name) < 3 or len(dob) < 8`). -/
def identityRejected (msg : String) : Bool :=
  match (pySplitComma2 msg).map pyStrip with
  | [name, dob, email] => !(pyContains email '@') || name.length < 3 || dob.length < 8
  | _ => true

/-- Acceptance predicate for identity input as the amended claim states it:
three comma-separated fields, the email contains `'@'`, the name is at
least 3 characters and the date of birth at least 8. -/
def acceptsIdentity (msg : String) : Bool :=
  match (pySplitComma2 msg).map pyStrip with
  | [name, dob, email] => pyContains email '@' && 3 ≤ name.length && 8 ≤ dob.length
  | _ => false

/-- The Category Router matching policy exactly as claim C7 states it
(spec §4.3): lower-case and trim, exact match against the keyword table
first, otherwise scan the whole table in insertion order and accept the
first keyword contained as a substring — with no exclusion of the numeric
keywords. Written from the claim's words, to be compared with the source's
`matchCategory`. -/
def claimRoute (input : String) : Option String :=
  let cleaned := pyStrip (pyLower input)
  match category_map.lookup cleaned with
  | some c => some c
  | none =>
    (category_map.find? (fun p => substrIn p.1.toList cleaned.toList)).map (fun p => p.2)

/-- An input the active state's handler does not recognize, for the three
prompt-states of claim C9: unparseable identity details in awaiting_info,
no category match in awaiting_category, neither a yes-word nor a no-word in
awaiting_confirmation. -/
def unrecognizedInput (ud : UserData) (msg : String) : Prop :=
  (ud.conversation_state = some STATE_AWAITING_INFO ∧ identityRejected msg = true)
  ∨ (ud.conversation_state = some STATE_AWAITING_CATEGORY ∧
      matchCategory (pyStrip (pyLower msg)) = none)
  ∨ (ud.conversation_state = some STATE_AWAITING_CONFIRMATION ∧
      yesWords.contains (pyStrip (pyLower msg)) = false ∧
      noWords.contains (pyStrip (pyLower msg)) = false)

-- ===================== Helper lemmas =====================

/-- Any all-failure run of the retry loop yields an Unknown/CONTINUE
decision, whatever the mix of statuses and exceptions. -/
theorem queryLoop_transport (os : List AttemptOutcome)
    (h : ∀ o ∈ os, isTransportFailure o = true) :
    (queryLoop os).category = "Unknown" ∧ (queryLoop os).action = "CONTINUE" := by
  induction os with
  | nil => exact ⟨rfl, rfl⟩
  | cons o rest ih =>
    have ho : isTransportFailure o = true := h o (List.mem_cons_self o rest)
    have hrest : ∀ x ∈ rest, isTransportFailure x = true :=
      fun x hx => h x (List.mem_cons_of_mem o hx)
    cases o with
    | ok p => simp [isTransportFailure] at ho
    | httpStatus code =>
      simp only [queryLoop]
      split_ifs with h1 h2 h3 h4
      · exact ⟨rfl, rfl⟩
      · exact ⟨rfl, rfl⟩
      · exact ⟨rfl, rfl⟩
      · exact ih hrest
      · exact ⟨rfl, rfl⟩
    | requestError =>
      simp only [queryLoop]
      split_ifs with h1
      · exact ⟨rfl, rfl⟩
      · exact ih hrest
    | otherError => exact ⟨rfl, rfl⟩

/-- Every decision the retry loop can return has its category inside the
fixed workflow set or equal to the Unknown sentinel. -/
theorem queryLoop_category_closed (os : List AttemptOutcome) :
    (queryLoop os).category ∈ WORKFLOWS ∨ (queryLoop os).category = "Unknown" := by
  induction os with
  | nil => right; rfl
  | cons o rest ih =>
    cases o with
    | ok p =>
      match p with
      | none => right; rfl
      | some (c, r, s, a) =>
        simp only [queryLoop, successDecision]
        split_ifs with h
        · left
          simpa using h
        · right; rfl
    | httpStatus code =>
      simp only [queryLoop]
      split_ifs with h1 h2 h3 h4
      · right; rfl
      · right; rfl
      · right; rfl
      · exact ih
      · right; rfl
    | requestError =>
      simp only [queryLoop]
      split_ifs with h1
      · right; rfl
      · exact ih
    | otherError => right; rfl

/-- The yes-word and no-word lists of the confirmation gate are disjoint. -/
theorem yesWords_noWords_disjoint (s : String)
    (h1 : yesWords.contains s = true) (h2 : noWords.contains s = true) : False := by
  simp [yesWords] at h1
  rcases h1 with rfl | rfl | rfl | rfl | rfl | rfl <;> simp [noWords] at h2

/-- C1: on a confirmed finalize whose staff email send raises, the code
still replies with the unqualified success message and the welcome prompt —
no partial-failure notice exists anywhere in the handler. -/
theorem c1_generic_success_despite_staff_sink_failure :
    handle_message
        (SmtpEnv.mk (some "user") (some "pass") (some "smtp.example.com") true false true)
        (UserData.mk (some STATE_AWAITING_CONFIRMATION) (some "Jane Doe") (some "01/01/1980")
          (some "jane@example.com") [Turn.mk "patient" "I need to change my appointment"]
          (some (Report.mk "Admin" "Appointment change request")))
        "yes" contDecision
      = some (UserData.mk (some STATE_AWAITING_INFO) none none none [] none,
              [confirmSuccessText, welcomeText],
              some (DispatchOutcome.mk .failed .notAttempted)) := rfl

/-- C2: in the chat_active state, a classifier decision with action REPORT
but category Unknown does not move the session to awaiting_confirmation,
leaves the pending report untouched, and never runs the dispatcher. -/
theorem c2_unknown_category_report_not_honored
    (env : SmtpEnv) (ud : UserData) (msg : String) (ai : Decision)
    (hstate : ud.conversation_state = some STATE_CHAT_ACTIVE)
    (hact : ai.action = "REPORT") (hcat : ai.category = "Unknown") :
    ∃ ud2, handle_message env ud msg ai = some (ud2, [ai.response], none) ∧
      ud2.conversation_state = some STATE_CHAT_ACTIVE ∧
      ud2.temp_report = ud.temp_report := by
  refine ⟨{ ud with chat_history := ud.chat_history ++ [{ role := "patient", text := msg }]
              ++ [{ role := "indie", text := ai.response }] }, ?_, hstate ▸ rfl, rfl⟩
  unfold handle_message
  rw [hstate, hact, hcat]
  simp [STATE_CHAT_ACTIVE, STATE_AWAITING_INFO, STATE_AWAITING_CATEGORY,
    STATE_AWAITING_CONFIRMATION, WORKFLOWS]

/-- Witness for C2 at a concrete session and decision. -/
theorem c2_witness :
    (UserData.mk (some STATE_CHAT_ACTIVE) (some "Jane Doe") none none [] none).conversation_state
        = some STATE_CHAT_ACTIVE ∧
    (Decision.mk "r" "Unknown" "s" "REPORT").action = "REPORT" ∧
    (Decision.mk "r" "Unknown" "s" "REPORT").category = "Unknown" ∧
    ∃ ud2, handle_message envOK (UserData.mk (some STATE_CHAT_ACTIVE) (some "Jane Doe") none none [] none)
        "hi" (Decision.mk "r" "Unknown" "s" "REPORT") = some (ud2, ["r"], none) ∧
      ud2.conversation_state = some STATE_CHAT_ACTIVE ∧
      ud2.temp_report = (UserData.mk (some STATE_CHAT_ACTIVE) (some "Jane Doe") none none [] none).temp_report :=
  ⟨rfl, rfl, rfl,
    c2_unknown_category_report_not_honored envOK _ "hi" _ rfl rfl rfl⟩

/-- C3: if every attempt of the classifier call fails at transport level
(error status, request exception or other raised exception), the returned
decision has action CONTINUE and category Unknown. -/
theorem c3_transport_failure_degrades_to_continue_unknown
    (o1 o2 o3 : AttemptOutcome)
    (h1 : isTransportFailure o1 = true) (h2 : isTransportFailure o2 = true)
    (h3 : isTransportFailure o3 = true) :
    (query_openrouter o1 o2 o3).action = "CONTINUE" ∧
    (query_openrouter o1 o2 o3).category = "Unknown" := by
  have h := queryLoop_transport [o1, o2, o3] ?_
  · exact ⟨h.2, h.1⟩
  · intro o ho
    rcases List.mem_cons.mp ho with rfl | ho
    · exact h1
    rcases List.mem_cons.mp ho with rfl | ho
    · exact h2
    rcases List.mem_cons.mp ho with rfl | ho
    · exact h3
    · exact absurd ho (List.not_mem_nil o)

/-- Witness for C3 at three timed-out attempts. -/
theorem c3_witness :
    isTransportFailure .requestError = true ∧
    (query_openrouter .requestError .requestError .requestError).action = "CONTINUE" ∧
    (query_openrouter .requestError .requestError .requestError).category = "Unknown" :=
  ⟨by decide,
    (c3_transport_failure_degrades_to_continue_unknown _ _ _ (by decide) (by decide) (by decide)).1,
    (c3_transport_failure_degrades_to_continue_unknown _ _ _ (by decide) (by decide) (by decide)).2⟩

/-- C4 counterexample: an identity input whose email contains '@' but no
'.' is accepted and the session moves to category selection, contradicting
the claim that such an input is rejected. -/
theorem c4_counterexample_email_without_dot_accepted :
    pyContains "jane@examplecom" '.' = false ∧
    handle_message envOK (UserData.mk (some STATE_AWAITING_INFO) none none none [] none)
        "Jane Doe, 01/01/1980, jane@examplecom" contDecision
      = some (UserData.mk (some STATE_AWAITING_CATEGORY) (some "Jane Doe") (some "01/01/1980")
                (some "jane@examplecom")
                [Turn.mk "patient" "Jane Doe, 01/01/1980, jane@examplecom"] none,
              [identityAcceptedText "Jane Doe"], none) :=
  ⟨rfl, rfl⟩

/-- C4 amended: in awaiting_info an input is accepted — identity stored and
session moved to category selection — exactly when it has three
comma-separated fields whose email contains '@', whose name is at least 3
characters and whose date of birth is at least 8 characters; otherwise the
handler re-prompts with no state change. The '.' requirement of the
original claim is not checked by the code. -/
theorem c4_amended_identity_validation
    (env : SmtpEnv) (ud : UserData) (msg : String) (ai : Decision)
    (hstate : ud.conversation_state = some STATE_AWAITING_INFO) :
    (acceptsIdentity msg = false →
      handle_message env ud msg ai = some (ud, [identityErrorText], none)) ∧
    (∀ name dob email, (pySplitComma2 msg).map pyStrip = [name, dob, email] →
      acceptsIdentity msg = true →
      handle_message env ud msg ai =
        some ({ ud with
                  full_name := some name, dob := some dob, email := some email,
                  conversation_state := some STATE_AWAITING_CATEGORY,
                  chat_history := [{ role := "patient", text := msg }] },
              [identityAcceptedText name], none)) := by
  constructor
  · intro hrej
    unfold handle_message
    rw [hstate]
    simp only [STATE_AWAITING_INFO, beq_self_eq_true, if_true]
    cases hp : (pySplitComma2 msg).map pyStrip with
    | nil => rfl
    | cons n t =>
      cases t with
      | nil => rfl
      | cons d t2 =>
        cases t2 with
        | nil => rfl
        | cons e t3 =>
          cases t3 with
          | cons e2 t4 => rfl
          | nil =>
            simp [acceptsIdentity, hp] at hrej
            have hcond : (!pyContains e '@' || decide (n.length < 3) || decide (d.length < 8))
                = true := by
              simp only [Bool.or_eq_true, Bool.not_eq_true', decide_eq_true_eq]
              rcases Bool.eq_false_or_eq_true (pyContains e '@') with h | h
              · by_cases hn : n.length < 3
                · exact Or.inl (Or.inr hn)
                · exact Or.inr (hrej h (by omega))
              · exact Or.inl (Or.inl h)
            simp [hcond]
  · intro name dob email hp hacc
    simp [acceptsIdentity, hp] at hacc
    obtain ⟨⟨hc, hn⟩, hd⟩ := hacc
    unfold handle_message
    rw [hstate]
    simp only [STATE_AWAITING_INFO, beq_self_eq_true, if_true]
    rw [hp]
    have h1 : decide (name.length < 3) = false := by simp only [decide_eq_false_iff_not]; omega
    have h2 : decide (dob.length < 8) = false := by simp only [decide_eq_false_iff_not]; omega
    have hcond : (!pyContains email '@' || decide (name.length < 3) || decide (dob.length < 8))
        = false := by rw [hc, h1, h2]; rfl
    simp [hcond]

/-- Witness for C4 amended at a concrete rejected input. -/
theorem c4_witness :
    (UserData.mk (some STATE_AWAITING_INFO) none none none [] none).conversation_state
        = some STATE_AWAITING_INFO ∧
    acceptsIdentity "hello" = false ∧
    handle_message envOK (UserData.mk (some STATE_AWAITING_INFO) none none none [] none)
        "hello" contDecision
      = some (UserData.mk (some STATE_AWAITING_INFO) none none none [] none,
              [identityErrorText], none) :=
  ⟨rfl, by decide,
    (c4_amended_identity_validation envOK _ "hello" contDecision rfl).1 (by decide)⟩

/-- C5 amended: a rejection in awaiting_confirmation always returns the
session to chat_active, keeps the pending report and all identity fields,
and replies with the fixed rejection text — history plays no role and the
pending report is not discarded. -/
theorem c5_amended_rejection_always_chat_active
    (env : SmtpEnv) (ud : UserData) (msg : String) (ai : Decision)
    (hstate : ud.conversation_state = some STATE_AWAITING_CONFIRMATION)
    (hno : noWords.contains (pyStrip (pyLower msg)) = true) :
    handle_message env ud msg ai =
      some ({ ud with conversation_state := some STATE_CHAT_ACTIVE }, [rejectionText], none) := by
  have hyes : yesWords.contains (pyStrip (pyLower msg)) = false := by
    cases h : yesWords.contains (pyStrip (pyLower msg)) with
    | false => rfl
    | true => exact absurd (yesWords_noWords_disjoint _ h hno) not_false
  have hno2 : pyStrip (pyLower msg) ∈ noWords := by simpa using hno
  have hyes2 : pyStrip (pyLower msg) ∉ yesWords := by simpa using hyes
  unfold handle_message
  rw [hstate]
  simp [STATE_CHAT_ACTIVE, STATE_AWAITING_INFO, STATE_AWAITING_CATEGORY,
    STATE_AWAITING_CONFIRMATION, hyes2, hno2]

/-- Witness for C5 amended at a concrete rejection. -/
theorem c5_witness :
    (UserData.mk (some STATE_AWAITING_CONFIRMATION) (some "Jane Doe") (some "01/01/1980")
        (some "jane@example.com") [Turn.mk "patient" "hello"] (some (Report.mk "Admin" "s"))).conversation_state
      = some STATE_AWAITING_CONFIRMATION ∧
    noWords.contains (pyStrip (pyLower "No")) = true ∧
    handle_message envOK
        (UserData.mk (some STATE_AWAITING_CONFIRMATION) (some "Jane Doe") (some "01/01/1980")
          (some "jane@example.com") [Turn.mk "patient" "hello"] (some (Report.mk "Admin" "s")))
        "No" contDecision
      = some (UserData.mk (some STATE_CHAT_ACTIVE) (some "Jane Doe") (some "01/01/1980")
                (some "jane@example.com") [Turn.mk "patient" "hello"] (some (Report.mk "Admin" "s")),
              [rejectionText], none) :=
  ⟨rfl, by decide,
    c5_amended_rejection_always_chat_active envOK _ "No" contDecision rfl (by decide)⟩

/-- C5 counterexample: a rejection with EMPTY history does not return to
category selection and does not discard the pending report — the session
goes to chat_active with the report still stored. -/
theorem c5_counterexample_empty_history_rejection :
    ((handle_message envOK
        (UserData.mk (some STATE_AWAITING_CONFIRMATION) (some "Jane Doe") (some "01/01/1980")
          (some "jane@example.com") [] (some (Report.mk "Admin" "Change my appointment")))
        "No" contDecision).map
      (fun p => (p.1.conversation_state, p.1.temp_report)))
      = some (some STATE_CHAT_ACTIVE, some (Report.mk "Admin" "Change my appointment")) ∧
    STATE_CHAT_ACTIVE ≠ STATE_AWAITING_CATEGORY :=
  ⟨rfl, by decide⟩

/-- C6 amended: leaving awaiting_confirmation through a confirmation clears
the pending report (by the full reset), but leaving it through a rejection
retains the pending report in the chat_active state. -/
theorem c6_amended_confirmation_clears_rejection_retains
    (env : SmtpEnv) (ud : UserData) (msg : String) (ai : Decision) (rep : Report)
    (hstate : ud.conversation_state = some STATE_AWAITING_CONFIRMATION)
    (hrep : ud.temp_report = some rep) :
    ∀ ud2 rs dp, handle_message env ud msg ai = some (ud2, rs, dp) →
      (yesWords.contains (pyStrip (pyLower msg)) = true → ud2.temp_report = none) ∧
      (noWords.contains (pyStrip (pyLower msg)) = true →
        ud2.temp_report = some rep ∧ ud2.conversation_state = some STATE_CHAT_ACTIVE) := by
  intro ud2 rs dp heq
  constructor
  · intro hyes
    have hyes2 : pyStrip (pyLower msg) ∈ yesWords := by simpa using hyes
    unfold handle_message at heq
    rw [hstate, hrep] at heq
    simp [STATE_CHAT_ACTIVE, STATE_AWAITING_INFO, STATE_AWAITING_CATEGORY,
      STATE_AWAITING_CONFIRMATION, hyes2] at heq
    rw [← heq.1]
    rfl
  · intro hno
    have hno2 : pyStrip (pyLower msg) ∈ noWords := by simpa using hno
    have hyes2 : pyStrip (pyLower msg) ∉ yesWords := by
      intro hmem
      exact yesWords_noWords_disjoint _ (by simpa using hmem) hno
    unfold handle_message at heq
    rw [hstate] at heq
    simp [STATE_CHAT_ACTIVE, STATE_AWAITING_INFO, STATE_AWAITING_CATEGORY,
      STATE_AWAITING_CONFIRMATION, hyes2, hno2] at heq
    rw [← heq.1]
    exact ⟨hrep, rfl⟩

/-- Witness for C6 amended at a concrete confirmed finalize. -/
theorem c6_witness :
    (UserData.mk (some STATE_AWAITING_CONFIRMATION) (some "Jane Doe") (some "01/01/1980")
        (some "jane@example.com") [Turn.mk "patient" "hello"] (some (Report.mk "Admin" "s"))).conversation_state
      = some STATE_AWAITING_CONFIRMATION ∧
    (∀ ud2 rs dp, handle_message envOK
        (UserData.mk (some STATE_AWAITING_CONFIRMATION) (some "Jane Doe") (some "01/01/1980")
          (some "jane@example.com") [Turn.mk "patient" "hello"] (some (Report.mk "Admin" "s")))
        "yes" contDecision = some (ud2, rs, dp) →
      (yesWords.contains (pyStrip (pyLower "yes")) = true → ud2.temp_report = none) ∧
      (noWords.contains (pyStrip (pyLower "yes")) = true →
        ud2.temp_report = some (Report.mk "Admin" "s") ∧
        ud2.conversation_state = some STATE_CHAT_ACTIVE)) :=
  ⟨rfl, c6_amended_confirmation_clears_rejection_retains envOK _ "yes" contDecision _ rfl rfl⟩

/-- C6 counterexample: a session reachable from a fresh start (identity,
category "2", one AI REPORT turn, then a rejection) ends in chat_active with
a non-null pending report — so temp_report is not confined to
awaiting_confirmation, and the rejection transition out of
awaiting_confirmation does not null it. -/
theorem c6_counterexample_temp_report_survives_rejection :
    ((runTrace envOK start_handler.1
        [("Jane Doe, 01/01/1980, jane@example.com", contDecision),
         ("2", contDecision),
         ("I need a repeat prescription",
           Decision.mk "Noted." "Prescription/Medication" "Repeat request" "REPORT"),
         ("no", contDecision)]).map
      (fun ud => (ud.conversation_state, ud.temp_report)))
      = some (some STATE_CHAT_ACTIVE,
              some (Report.mk "Prescription/Medication" "Repeat request")) ∧
    STATE_CHAT_ACTIVE ≠ STATE_AWAITING_CONFIRMATION :=
  ⟨rfl, by decide⟩

/-- C7 counterexample: on the input "option 1" the claimed policy — scan
the whole table and accept the first keyword contained as a substring —
matches the keyword "1" and yields Administrative, but the code skips
numeric keywords in the substring scan and only re-prompts, with no
transition. -/
theorem c7_counterexample_digit_keyword_not_substring_matched :
    claimRoute "option 1" = some "Administrative" ∧
    handle_message envOK
        (UserData.mk (some STATE_AWAITING_CATEGORY) (some "Jane Doe") (some "01/01/1980")
          (some "jane@example.com") [Turn.mk "patient" "hi"] none)
        "option 1" contDecision
      = some (UserData.mk (some STATE_AWAITING_CATEGORY) (some "Jane Doe") (some "01/01/1980")
                (some "jane@example.com") [Turn.mk "patient" "hi"] none,
              [categoryRepromptText], none) :=
  ⟨rfl, rfl⟩

/-- C7 amended: the router lower-cases and trims the input, tries an exact
keyword match, and otherwise scans the table in insertion order accepting
the first NON-NUMERIC keyword contained as a substring; "1",
"administrative" and "Admin" all resolve to Administrative; an input
matching no keyword yields a re-prompt with no transition. -/
theorem c7_amended_router_policy
    (env : SmtpEnv) (ud : UserData) (msg : String) (ai : Decision)
    (hstate : ud.conversation_state = some STATE_AWAITING_CATEGORY) :
    (matchCategory (pyStrip (pyLower msg)) = none →
      handle_message env ud msg ai = some (ud, [categoryRepromptText], none)) ∧
    (∀ c, matchCategory (pyStrip (pyLower msg)) = some c →
      handle_message env ud msg ai =
        some ({ ud with
                  chat_history := ud.chat_history ++
                    [{ role := "patient", text := "My query is about a " ++ c ++ " issue." }],
                  conversation_state := some STATE_CHAT_ACTIVE },
              [categoryAckText c], none)) ∧
    matchCategory (pyStrip (pyLower "1")) = some "Administrative" ∧
    matchCategory (pyStrip (pyLower "administrative")) = some "Administrative" ∧
    matchCategory (pyStrip (pyLower "Admin")) = some "Administrative" := by
  refine ⟨?_, ?_, by decide, by decide, by decide⟩
  · intro hnone
    unfold handle_message
    rw [hstate]
    simp [STATE_AWAITING_INFO, STATE_AWAITING_CATEGORY, hnone]
  · intro c hc
    unfold handle_message
    rw [hstate]
    simp [STATE_AWAITING_INFO, STATE_AWAITING_CATEGORY, hc]

/-- Witness for C7 amended at a concrete unmatched input. -/
theorem c7_witness :
    (UserData.mk (some STATE_AWAITING_CATEGORY) (some "Jane Doe") none none [] none).conversation_state
      = some STATE_AWAITING_CATEGORY ∧
    matchCategory (pyStrip (pyLower "xyz")) = none ∧
    handle_message envOK (UserData.mk (some STATE_AWAITING_CATEGORY) (some "Jane Doe") none none [] none)
        "xyz" contDecision
      = some (UserData.mk (some STATE_AWAITING_CATEGORY) (some "Jane Doe") none none [] none,
              [categoryRepromptText], none) :=
  ⟨rfl, by decide,
    (c7_amended_router_policy envOK _ "xyz" contDecision rfl).1 (by decide)⟩

/-- C9: in each of the three prompt-states, an input the state's handler
does not recognize leaves the whole session (state, identity fields,
history, pending report) unchanged and produces exactly one re-prompt. -/
theorem c9_unrecognized_input_only_reprompts
    (env : SmtpEnv) (ud : UserData) (msg : String) (ai : Decision)
    (h : unrecognizedInput ud msg) :
    ∃ r, handle_message env ud msg ai = some (ud, [r], none) := by
  rcases h with ⟨hstate, hrej⟩ | ⟨hstate, hnone⟩ | ⟨hstate, hyes, hno⟩
  · refine ⟨identityErrorText, ?_⟩
    unfold handle_message
    rw [hstate]
    simp only [STATE_AWAITING_INFO, beq_self_eq_true, if_true]
    cases hp : (pySplitComma2 msg).map pyStrip with
    | nil => rfl
    | cons n t =>
      cases t with
      | nil => rfl
      | cons d t2 =>
        cases t2 with
        | nil => rfl
        | cons e t3 =>
          cases t3 with
          | cons e2 t4 => rfl
          | nil =>
            simp [identityRejected, hp] at hrej
            have hcond : (!pyContains e '@' || decide (n.length < 3) || decide (d.length < 8))
                = true := by
              simp only [Bool.or_eq_true, Bool.not_eq_true', decide_eq_true_eq]
              exact hrej
            simp [hcond]
  · refine ⟨categoryRepromptText, ?_⟩
    unfold handle_message
    rw [hstate]
    simp [STATE_AWAITING_INFO, STATE_AWAITING_CATEGORY, hnone]
  · refine ⟨confirmRepromptText, ?_⟩
    have hyes2 : pyStrip (pyLower msg) ∉ yesWords := by simpa using hyes
    have hno2 : pyStrip (pyLower msg) ∉ noWords := by simpa using hno
    unfold handle_message
    rw [hstate]
    simp [STATE_AWAITING_INFO, STATE_AWAITING_CATEGORY, STATE_AWAITING_CONFIRMATION,
      hyes2, hno2]

/-- Witness for C9 at an unparseable identity input. -/
theorem c9_witness :
    unrecognizedInput (UserData.mk (some STATE_AWAITING_INFO) none none none [] none) "hello" ∧
    ∃ r, handle_message envOK (UserData.mk (some STATE_AWAITING_INFO) none none none [] none)
        "hello" contDecision
      = some (UserData.mk (some STATE_AWAITING_INFO) none none none [] none, [r], none) :=
  ⟨Or.inl ⟨rfl, by decide⟩,
    c9_unrecognized_input_only_reprompts envOK _ "hello" contDecision (Or.inl ⟨rfl, by decide⟩)⟩

/-- C10: a recognized yes-input in awaiting_confirmation dispatches the
report and then fully resets the session: state awaiting_info, no identity
fields, empty history, no pending report — nothing survives. -/
theorem c10_confirmed_finalize_full_reset
    (env : SmtpEnv) (ud : UserData) (msg : String) (ai : Decision) (rep : Report)
    (hstate : ud.conversation_state = some STATE_AWAITING_CONFIRMATION)
    (hrep : ud.temp_report = some rep)
    (hyes : yesWords.contains (pyStrip (pyLower msg)) = true) :
    handle_message env ud msg ai =
      some (UserData.mk (some STATE_AWAITING_INFO) none none none [] none,
            [confirmSuccessText, welcomeText],
            some (generate_report_and_send_email env ud.email)) := by
  have hyes2 : pyStrip (pyLower msg) ∈ yesWords := by simpa using hyes
  unfold handle_message
  rw [hstate, hrep]
  simp [STATE_AWAITING_INFO, STATE_AWAITING_CATEGORY, STATE_AWAITING_CONFIRMATION,
    STATE_CHAT_ACTIVE, hyes2, start_handler]

/-- Witness for C10 at a concrete confirmed finalize. -/
theorem c10_witness :
    (UserData.mk (some STATE_AWAITING_CONFIRMATION) (some "Jane Doe") (some "01/01/1980")
        (some "jane@example.com") [Turn.mk "patient" "hello"] (some (Report.mk "Admin" "s"))).conversation_state
      = some STATE_AWAITING_CONFIRMATION ∧
    yesWords.contains (pyStrip (pyLower "Yes")) = true ∧
    handle_message envOK
        (UserData.mk (some STATE_AWAITING_CONFIRMATION) (some "Jane Doe") (some "01/01/1980")
          (some "jane@example.com") [Turn.mk "patient" "hello"] (some (Report.mk "Admin" "s")))
        "Yes" contDecision
      = some (UserData.mk (some STATE_AWAITING_INFO) none none none [] none,
              [confirmSuccessText, welcomeText],
              some (generate_report_and_send_email envOK (some "jane@example.com"))) :=
  ⟨rfl, by decide,
    c10_confirmed_finalize_full_reset envOK _ "Yes" contDecision _ rfl rfl (by decide)⟩

/-- C8: whatever the three HTTP attempts yield — success with any category
string, any error status, any exception — the category returned by the
classifier adapter is inside the fixed workflow set or is the Unknown
sentinel; out-of-set categories are coerced before being returned. -/
theorem c8_category_always_in_fixed_set_or_unknown (o1 o2 o3 : AttemptOutcome) :
    (query_openrouter o1 o2 o3).category ∈ WORKFLOWS ∨
    (query_openrouter o1 o2 o3).category = "Unknown" :=
  queryLoop_category_closed [o1, o2, o3]
